import Mathlib

/-!
Verification of the `awsri` cost calculator.

Shallow embedding of the cost-computation core of the `awsri` CLI
(table.go, rds.go, elasticache.go, fargate.go, ec2.go, total.go and the
shared helpers file) together with proofs about the specification's
claims.

Go `float64` values are modelled by `GoFloat`: an exact-rational carrier
extended with the IEEE-754 special values `+inf`, `-inf` and `NaN`.
Rounding is not modelled (all finite arithmetic is exact), but the
special-value behaviour of division by zero and arithmetic with
infinities follows IEEE-754, which is what Go's float64 operators do.
Signed zero is not representable; `1/+inf` collapses to `0`.
-/

/-- Model of a Go `float64`: an exact rational, or one of the IEEE-754
special values produced by operations such as division by zero. -/
inductive GoFloat : Type
  | finite (q : ℚ)
  | posInf
  | negInf
  | nan
  deriving DecidableEq, Repr

namespace GoFloat

/-- Tests whether the value is an ordinary (finite) number. -/
def isFinite : GoFloat → Bool
  | finite _ => true
  | _ => false

/-- IEEE-754 negation. -/
def neg : GoFloat → GoFloat
  | finite a => finite (-a)
  | posInf => negInf
  | negInf => posInf
  | nan => nan

/-- IEEE-754 addition (exact on finite values). -/
def add : GoFloat → GoFloat → GoFloat
  | nan, _ => nan
  | _, nan => nan
  | finite a, finite b => finite (a + b)
  | posInf, negInf => nan
  | negInf, posInf => nan
  | posInf, _ => posInf
  | _, posInf => posInf
  | negInf, _ => negInf
  | _, negInf => negInf

/-- IEEE-754 subtraction, `a - b = a + (-b)`. -/
def sub (a b : GoFloat) : GoFloat := add a (neg b)

/-- IEEE-754 multiplication (exact on finite values). -/
def mul : GoFloat → GoFloat → GoFloat
  | nan, _ => nan
  | _, nan => nan
  | finite a, finite b => finite (a * b)
  | finite a, posInf => if 0 < a then posInf else if a < 0 then negInf else nan
  | finite a, negInf => if 0 < a then negInf else if a < 0 then posInf else nan
  | posInf, finite b => if 0 < b then posInf else if b < 0 then negInf else nan
  | negInf, finite b => if 0 < b then negInf else if b < 0 then posInf else nan
  | posInf, posInf => posInf
  | posInf, negInf => negInf
  | negInf, posInf => negInf
  | negInf, negInf => posInf

/-- IEEE-754 division: finite/0 gives a signed infinity (or NaN for 0/0),
finite/inf gives 0, inf/inf gives NaN. -/
def div : GoFloat → GoFloat → GoFloat
  | nan, _ => nan
  | _, nan => nan
  | finite a, finite b =>
      if b = 0 then (if 0 < a then posInf else if a < 0 then negInf else nan)
      else finite (a / b)
  | finite _, posInf => finite 0
  | finite _, negInf => finite 0
  | posInf, finite b => if 0 ≤ b then posInf else negInf
  | negInf, finite b => if 0 ≤ b then negInf else posInf
  | posInf, _ => nan
  | negInf, _ => nan

instance : Add GoFloat := ⟨add⟩
instance : Sub GoFloat := ⟨sub⟩
instance : Mul GoFloat := ⟨mul⟩
instance : Div GoFloat := ⟨div⟩
instance : Neg GoFloat := ⟨neg⟩

theorem add_def (a b : GoFloat) : a + b = add a b := rfl

theorem sub_def (a b : GoFloat) : a - b = sub a b := rfl

theorem mul_def (a b : GoFloat) : a * b = mul a b := rfl

theorem div_def (a b : GoFloat) : a / b = div a b := rfl

@[simp] theorem finite_add (a b : ℚ) : finite a + finite b = finite (a + b) := rfl

@[simp] theorem finite_sub (a b : ℚ) : finite a - finite b = finite (a - b) := by
  show add (finite a) (neg (finite b)) = finite (a - b)
  simp [add, neg, sub_eq_add_neg]

@[simp] theorem finite_mul (a b : ℚ) : finite a * finite b = finite (a * b) := rfl

theorem finite_div (a b : ℚ) :
    finite a / finite b =
      if b = 0 then (if 0 < a then posInf else if a < 0 then negInf else nan)
      else finite (a / b) := rfl

@[simp] theorem finite_div_of_ne (a b : ℚ) (hb : b ≠ 0) :
    finite a / finite b = finite (a / b) := by
  simp [finite_div, hb]

end GoFloat

/-! ## table.go: cost normalisation and table rows -/

open GoFloat in
/-- Embeds `CalculateEffectiveMonthly` (table.go).  Despite the name the
current revision returns the effective *yearly* cost:
`((fixedPrice / durationMonths) + monthlyRecurring) * 12`. -/
def CalculateEffectiveMonthly (fixedPrice monthlyRecurring : GoFloat)
    (durationMonths : ℤ) : GoFloat :=
  let monthlyUpfront := fixedPrice / finite (durationMonths : ℚ)
  let monthlyTotal := monthlyUpfront + monthlyRecurring
  monthlyTotal * finite 12

open GoFloat in
/-- Embeds `CalculateSavings` (table.go).  The current revision converts
the monthly on-demand baseline to a yearly figure and returns the yearly
savings amount and the savings percentage relative to that yearly
baseline. -/
def CalculateSavings (onDemandPrice effectiveYearly : GoFloat) :
    GoFloat × GoFloat :=
  let yearlyOnDemand := onDemandPrice * finite 12
  let yearlySavings := yearlyOnDemand - effectiveYearly
  let savingsPercent := (yearlySavings / yearlyOnDemand) * finite 100
  (yearlySavings, savingsPercent)

/-- Embeds `DurationToMonths` (table.go): years to months. -/
def DurationToMonths (years : ℤ) : ℤ := years * 12

/-- Embeds `OfferingTypes` (table.go). -/
def OfferingTypes : List String :=
  ["On-Demand", "No Upfront", "Partial Upfront", "All Upfront"]

/-- Embeds `Durations` (table.go). -/
def Durations : List ℤ := [1, 3]

/-- One table cell.  String cells are kept verbatim; numeric cells keep
the value handed to `fmt.Sprintf` instead of the formatted text (the
printf formatting itself is presentation, not logic). -/
inductive Cell : Type
  | str (s : String)
  | dur (years : ℤ)
  | num (x : GoFloat)
  | savings (amount percent : GoFloat)
  deriving DecidableEq, Repr

open GoFloat in
/-- Embeds `TableRenderer.AppendOnDemandRow` (table.go): the row cells
appended for an on-demand line. -/
def AppendOnDemandRow (duration : ℤ) (onDemandPrice : GoFloat) : List Cell :=
  let yearlyPrice := onDemandPrice * finite 12
  [Cell.dur duration, Cell.str "On-Demand", Cell.str "0",
   Cell.num onDemandPrice, Cell.num yearlyPrice, Cell.str "-"]

/-- Embeds `TableRenderer.AppendReservedRow` (table.go). -/
def AppendReservedRow (duration : ℤ) (offeringType : String)
    (fixedPrice monthlyRecurring effectiveYearly yearlySavings
      savingsPercent : GoFloat) : List Cell :=
  [Cell.dur duration, Cell.str offeringType, Cell.num fixedPrice,
   Cell.num monthlyRecurring, Cell.num effectiveYearly,
   Cell.savings yearlySavings savingsPercent]

/-- Embeds `TableRenderer.AppendNotAvailableRow` (table.go). -/
def AppendNotAvailableRow (duration : ℤ) (offeringType : String) : List Cell :=
  [Cell.dur duration, Cell.str offeringType,
   Cell.str "N/A", Cell.str "N/A", Cell.str "N/A", Cell.str "N/A"]

/-- Embeds `TableRenderer.AppendSeparator` (table.go). -/
def AppendSeparatorRow : List Cell :=
  [Cell.str "", Cell.str "", Cell.str "", Cell.str "", Cell.str "", Cell.str ""]

/-! ## Region/location translation (shared helpers file and fargate.go) -/

/-- The shared location→region table (`mapLocationToRegion`, shared
helpers file). -/
def locationToRegionTable : List (String × String) :=
  [("Asia Pacific (Tokyo)", "ap-northeast-1"),
   ("Asia Pacific (Seoul)", "ap-northeast-2"),
   ("Asia Pacific (Osaka)", "ap-northeast-3"),
   ("Asia Pacific (Mumbai)", "ap-south-1"),
   ("Asia Pacific (Singapore)", "ap-southeast-1"),
   ("Asia Pacific (Sydney)", "ap-southeast-2"),
   ("Asia Pacific (Jakarta)", "ap-southeast-3"),
   ("Asia Pacific (Melbourne)", "ap-southeast-4"),
   ("Canada (Central)", "ca-central-1"),
   ("EU (Frankfurt)", "eu-central-1"),
   ("EU (Ireland)", "eu-west-1"),
   ("EU (London)", "eu-west-2"),
   ("EU (Paris)", "eu-west-3"),
   ("EU (Milan)", "eu-south-1"),
   ("EU (Stockholm)", "eu-north-1"),
   ("EU (Spain)", "eu-south-2"),
   ("EU (Zurich)", "eu-central-2"),
   ("Middle East (Bahrain)", "me-south-1"),
   ("Middle East (UAE)", "me-central-1"),
   ("South America (São Paulo)", "sa-east-1"),
   ("US East (N. Virginia)", "us-east-1"),
   ("US East (Ohio)", "us-east-2"),
   ("US West (N. California)", "us-west-1"),
   ("US West (Oregon)", "us-west-2"),
   ("Africa (Cape Town)", "af-south-1"),
   ("Asia Pacific (Hong Kong)", "ap-east-1"),
   ("China (Beijing)", "cn-north-1"),
   ("China (Ningxia)", "cn-northwest-1"),
   ("Israel (Tel Aviv)", "il-central-1")]

/-- The shared region→location table (`mapRegionToLocation`, shared
helpers file). -/
def regionToLocationTable : List (String × String) :=
  [("ap-northeast-1", "Asia Pacific (Tokyo)"),
   ("ap-northeast-2", "Asia Pacific (Seoul)"),
   ("ap-northeast-3", "Asia Pacific (Osaka)"),
   ("ap-south-1", "Asia Pacific (Mumbai)"),
   ("ap-southeast-1", "Asia Pacific (Singapore)"),
   ("ap-southeast-2", "Asia Pacific (Sydney)"),
   ("ap-southeast-3", "Asia Pacific (Jakarta)"),
   ("ap-southeast-4", "Asia Pacific (Melbourne)"),
   ("ca-central-1", "Canada (Central)"),
   ("eu-central-1", "EU (Frankfurt)"),
   ("eu-west-1", "EU (Ireland)"),
   ("eu-west-2", "EU (London)"),
   ("eu-west-3", "EU (Paris)"),
   ("eu-south-1", "EU (Milan)"),
   ("eu-north-1", "EU (Stockholm)"),
   ("eu-south-2", "EU (Spain)"),
   ("eu-central-2", "EU (Zurich)"),
   ("me-south-1", "Middle East (Bahrain)"),
   ("me-central-1", "Middle East (UAE)"),
   ("sa-east-1", "South America (São Paulo)"),
   ("us-east-1", "US East (N. Virginia)"),
   ("us-east-2", "US East (Ohio)"),
   ("us-west-1", "US West (N. California)"),
   ("us-west-2", "US West (Oregon)"),
   ("af-south-1", "Africa (Cape Town)"),
   ("ap-east-1", "Asia Pacific (Hong Kong)"),
   ("cn-north-1", "China (Beijing)"),
   ("cn-northwest-1", "China (Ningxia)"),
   ("il-central-1", "Israel (Tel Aviv)")]

/-- Embeds `mapLocationToRegion` (shared helpers file): unknown
locations give the empty string. -/
def mapLocationToRegion (location : String) : String :=
  match locationToRegionTable.lookup location with
  | some region => region
  | none => ""

/-- Embeds `mapRegionToLocation` (shared helpers file): unknown region
codes are returned unchanged. -/
def mapRegionToLocation (region : String) : String :=
  match regionToLocationTable.lookup region with
  | some location => location
  | none => region

namespace FargateCommand

/-- The 7-entry location→region table of `FargateCommand.mapLocationToRegion`
(fargate.go). -/
def locationMapFargate : List (String × String) :=
  [("Asia Pacific (Tokyo)", "ap-northeast-1"),
   ("US East (N. Virginia)", "us-east-1"),
   ("US West (Oregon)", "us-west-2"),
   ("EU (Ireland)", "eu-west-1"),
   ("Asia Pacific (Singapore)", "ap-southeast-1"),
   ("Asia Pacific (Sydney)", "ap-southeast-2"),
   ("EU (Frankfurt)", "eu-central-1")]

/-- The 7-entry region→location table of `FargateCommand.mapRegionToLocation`
(fargate.go). -/
def regionMapFargate : List (String × String) :=
  [("ap-northeast-1", "Asia Pacific (Tokyo)"),
   ("us-east-1", "US East (N. Virginia)"),
   ("us-west-2", "US West (Oregon)"),
   ("eu-west-1", "EU (Ireland)"),
   ("ap-southeast-1", "Asia Pacific (Singapore)"),
   ("ap-southeast-2", "Asia Pacific (Sydney)"),
   ("eu-central-1", "EU (Frankfurt)")]

/-- Embeds `FargateCommand.mapLocationToRegion` (fargate.go): unknown
locations give the empty string. -/
def mapLocationToRegion (location : String) : String :=
  match locationMapFargate.lookup location with
  | some region => region
  | none => ""

/-- Embeds `FargateCommand.mapRegionToLocation` (fargate.go): unknown
region codes are returned unchanged. -/
def mapRegionToLocation (region : String) : String :=
  match regionMapFargate.lookup region with
  | some location => location
  | none => region

end FargateCommand

/-! ## Strings: lower-casing and substring containment (Go `strings`) -/

/-- Tests whether `pat` is a leading segment of `l` (Go `strings.HasPrefix`
on character lists). -/
def charsLeadWith : List Char → List Char → Bool
  | [], _ => true
  | _ :: _, [] => false
  | a :: as, b :: bs => a = b && charsLeadWith as bs

/-- Tests whether `pat` occurs contiguously somewhere in `l`. -/
def charsContain (pat : List Char) : List Char → Bool
  | [] => charsLeadWith pat []
  | b :: bs => charsLeadWith pat (b :: bs) || charsContain pat bs

/-- Go `strings.Contains s pat`. -/
def strContains (s pat : String) : Bool := charsContain pat.data s.data

/-- Go `strings.ToLower` (ASCII is all the sources use). -/
def strToLower (s : String) : String := ⟨s.data.map Char.toLower⟩

/-! ## Price document parser (`extractOnDemandPriceFromResult`,
shared helpers file and fargate.go — the two copies are identical) -/

/-- One price dimension of a pricing document: the `unit` string and the
`pricePerUnit.USD` value.  `usd = none` models both a missing USD field
and a USD string `strconv.ParseFloat` rejects — the code skips the
dimension in either case; `usd = some r` models a USD string parsing to
`r`. -/
structure PriceDim where
  unit : String
  usd : Option ℚ
  deriving DecidableEq, Repr

/-- One `OnDemand` term entry: `none` models an entry that is not a map
or has no `priceDimensions` (skipped); `some dims` its dimension list. -/
def PriceTerm : Type := Option (List (Option PriceDim))

/-- A parsed pricing document, from `terms` down.  `terms = none` models
a document without a `terms` map; `terms = some none` one without an
`OnDemand` map; Go's unordered map iteration is fixed to list order. -/
structure PriceDoc where
  terms : Option (Option (List PriceTerm))

/-- Extraction failures of `extractOnDemandPriceFromResult`. -/
inductive PriceExtractErr : Type
  | termsNotFound
  | onDemandNotFound
  | priceNotFound
  deriving DecidableEq, Repr

/-- The unit test of `extractOnDemandPriceFromResult`: the unit denotes
seconds when its lower-casing contains `"second"` or `"sec"`. -/
def unitDenotesSeconds (unit : String) : Bool :=
  strContains (strToLower unit) "second" || strContains (strToLower unit) "sec"

/-- The inner `priceDimensions` loop: first dimension with a usable USD
value wins; its rate is multiplied by 3600 when the unit denotes
seconds. -/
def scanPriceDims : List (Option PriceDim) → Option ℚ
  | [] => none
  | none :: rest => scanPriceDims rest
  | some d :: rest =>
      match d.usd with
      | none => scanPriceDims rest
      | some price =>
          some (if unitDenotesSeconds d.unit then price * 3600 else price)

/-- The outer `OnDemand` terms loop. -/
def scanPriceTerms : List PriceTerm → Option ℚ
  | [] => none
  | none :: rest => scanPriceTerms rest
  | some dims :: rest =>
      match scanPriceDims dims with
      | some price => some price
      | none => scanPriceTerms rest

/-- Embeds `extractOnDemandPriceFromResult` (shared helpers file, and
the identical method copy in fargate.go): navigate
`terms → OnDemand → priceDimensions → pricePerUnit.USD`, normalising a
per-second rate to an hourly rate by multiplying by 3600. -/
def extractOnDemandPriceFromResult (doc : PriceDoc) : Except PriceExtractErr ℚ :=
  match doc.terms with
  | none => .error .termsNotFound
  | some none => .error .onDemandNotFound
  | some (some onDemand) =>
      match scanPriceTerms onDemand with
      | some price => .ok price
      | none => .error .priceNotFound

/-- A document with exactly one term holding exactly one dimension. -/
def singleDimDoc (unit : String) (rate : ℚ) : PriceDoc :=
  ⟨some (some [some [some ⟨unit, some rate⟩]])⟩

/-! ## Savings-plan payment option and query fallback
(fargate.go / ec2.go `getComputeSavingsPlanPrice`) -/

/-- The option map of `convertPaymentOptionToAWSFormat` (fargate.go). -/
def paymentOptionMap : List (String × String) :=
  [("no-upfront", "No Upfront"),
   ("partial-upfront", "Partial Upfront"),
   ("all-upfront", "All Upfront")]

/-- Errors surfaced by the savings-plan rate query logic. -/
inductive SPQueryError : Type
  | invalidPaymentOption (opt : String)
  | noOfferingRatesFound (opt : String)
  deriving DecidableEq, Repr

/-- Embeds `convertPaymentOptionToAWSFormat` (fargate.go): lowercase
hyphenated option to the AWS API form, error on anything else. -/
def convertPaymentOptionToAWSFormat (option : String) :
    Except SPQueryError String :=
  match paymentOptionMap.lookup option with
  | some awsFormat => .ok awsFormat
  | none => .error (.invalidPaymentOption option)

/-- Embeds the offering-rate query sequence of
`getComputeSavingsPlanPrice` (fargate.go lines 300–360, ec2.go lines
144–209; the two are identical): the service is modelled as a function
`query` from the AWS-format payment option to the returned candidate
list.  Returns the list finally used (or the error) together with the
payment options queried, in order. -/
def describeOfferingRatesWithFallback {α : Type} (query : String → List α)
    (paymentOptionInput : String) :
    Except SPQueryError (List α) × List String :=
  let paymentOptionStr :=
    if paymentOptionInput = "" then "no-upfront" else paymentOptionInput
  match convertPaymentOptionToAWSFormat paymentOptionStr with
  | .error e => (.error e, [])
  | .ok awsPaymentOption =>
      let result := query awsPaymentOption
      if result.length = 0 then
        if paymentOptionStr = "no-upfront" then
          let result2 := query "All Upfront"
          if result2.length = 0 then
            (.error (.noOfferingRatesFound paymentOptionStr),
             [awsPaymentOption, "All Upfront"])
          else (.ok result2, [awsPaymentOption, "All Upfront"])
        else
          (.error (.noOfferingRatesFound paymentOptionStr), [awsPaymentOption])
      else (.ok result, [awsPaymentOption])

/-! ## Fargate and EC2 commitment-purchase arithmetic
(`FargateCommand.Run` fargate.go lines 63–92, `EC2Command.Run`
ec2.go lines 63–79) -/

/-- The figures computed by `FargateCommand.Run` / `EC2Command.Run`
after the pricing lookups. -/
structure SPRunResult where
  currentCostPerMonth : GoFloat
  spCostPerMonth : GoFloat
  hourlyCommitment : GoFloat
  spPurchaseAmount : GoFloat
  savingsAmount : GoFloat
  savingsRate : GoFloat
  deriving DecidableEq, Repr

open GoFloat in
/-- Embeds the arithmetic of `FargateCommand.Run` (fargate.go lines
63–92): the vCPU input is divided by 1024 (millicores), the memory
input by 1024 (MB→GB), monthly costs use 720 hours/month, the hourly
commitment is the savings-plan monthly cost divided back by 720, and
the purchase amount is commitment × 720 × 12 × years. -/
def fargateRunCalc (taskCount : ℤ) (vcpuPerHour memoryGBPerHour
    odVCPUPrice odMemoryPrice spVCPUPrice spMemoryPrice : GoFloat)
    (duration : ℤ) : SPRunResult :=
  let vcpuCount := vcpuPerHour / finite 1024
  let memoryGB := memoryGBPerHour / finite 1024
  let hoursPerMonth := finite 720
  let tc := finite (taskCount : ℚ)
  let currentCostPerMonth :=
    tc * vcpuCount * hoursPerMonth * odVCPUPrice +
      tc * memoryGB * hoursPerMonth * odMemoryPrice
  let spCostPerMonth :=
    tc * vcpuCount * hoursPerMonth * spVCPUPrice +
      tc * memoryGB * hoursPerMonth * spMemoryPrice
  let hourlySPCost := spCostPerMonth / hoursPerMonth
  let hourlyCommitment := hourlySPCost
  let spPurchaseAmount :=
    hourlyCommitment * hoursPerMonth * finite 12 * finite (duration : ℚ)
  let savingsAmount := currentCostPerMonth - spCostPerMonth
  let savingsRate := (savingsAmount / currentCostPerMonth) * finite 100
  ⟨currentCostPerMonth, spCostPerMonth, hourlyCommitment,
   spPurchaseAmount, savingsAmount, savingsRate⟩

open GoFloat in
/-- Embeds the arithmetic of `EC2Command.Run` (ec2.go lines 63–79). -/
def ec2RunCalc (count : ℤ) (onDemandPrice spPrice : GoFloat)
    (duration : ℤ) : SPRunResult :=
  let hourlyCommitment := finite (count : ℚ) * spPrice
  let hoursPerMonth := finite 720
  let spPurchaseAmount :=
    hourlyCommitment * hoursPerMonth * finite 12 * finite (duration : ℚ)
  let currentCostPerMonth := finite (count : ℚ) * onDemandPrice * hoursPerMonth
  let spCostPerMonth := finite (count : ℚ) * spPrice * hoursPerMonth
  let savingsAmount := currentCostPerMonth - spCostPerMonth
  let savingsRate := (savingsAmount / currentCostPerMonth) * finite 100
  ⟨currentCostPerMonth, spCostPerMonth, hourlyCommitment,
   spPurchaseAmount, savingsAmount, savingsRate⟩

/-! ## RDS / ElastiCache reservation offerings (rds.go, elasticache.go) -/

/-- A reserved DB instance offering as far as rds.go reads it.
`duration` mirrors the offering's duration property; `RDSCommand` never
inspects it client-side (the requested duration only parametrises the
query).  `recurringChargeAmount` is `RecurringCharges[0].RecurringChargeAmount`. -/
structure ReservedDBInstancesOffering where
  productDescription : String
  multiAZ : Bool
  duration : ℤ
  fixedPrice : GoFloat
  recurringChargeAmount : GoFloat
  deriving DecidableEq, Repr

/-- A reserved cache node offering as far as elasticache.go reads it. -/
structure ReservedCacheNodesOffering where
  fixedPrice : GoFloat
  recurringChargeAmount : GoFloat
  deriving DecidableEq, Repr

/-- Embeds `RDSCommand.getOffering` (rds.go lines 162–169): the first
offering whose product description and Multi-AZ flag both equal the
requested ones, and nil (`none`) when no offering matches. -/
def getOffering (offerings : List ReservedDBInstancesOffering)
    (productDescription : String) (multiAz : Bool) :
    Option ReservedDBInstancesOffering :=
  offerings.find? fun offering =>
    offering.productDescription == productDescription &&
      offering.multiAZ == multiAz

/-- Embeds the offering selection of `ElasticacheCommand.Run`
(elasticache.go lines 93–96): when the query returned a non-empty list
the first candidate is used unconditionally, with no attribute check. -/
def elasticacheSelectOffering (offerings : List ReservedCacheNodesOffering) :
    Option ReservedCacheNodesOffering :=
  if offerings.length > 0 then offerings.head? else none

open GoFloat in
/-- The row `RDSCommand.Run` (rds.go lines 53–100) appends for one
(duration, offering type) combination.  `query` models
`DescribeReservedDBInstancesOfferings` for this command invocation:
the candidate list returned for a given duration and offering type. -/
def rdsRowFor (query : ℤ → String → List ReservedDBInstancesOffering)
    (productDescription : String) (multiAz : Bool)
    (onDemandPrice : GoFloat) (duration : ℤ) (offeringType : String) :
    List Cell :=
  if offeringType = "On-Demand" then
    AppendOnDemandRow duration onDemandPrice
  else
    let offerings := query duration offeringType
    if offerings.length > 0 then
      match getOffering offerings productDescription multiAz with
      | none => AppendNotAvailableRow duration offeringType
      | some offering =>
          let monthlyRecurring :=
            offering.recurringChargeAmount * finite 24 * finite 30
          let fixedPrice := offering.fixedPrice
          let effectiveYearly :=
            CalculateEffectiveMonthly fixedPrice monthlyRecurring
              (DurationToMonths duration)
          let sv := CalculateSavings onDemandPrice effectiveYearly
          AppendReservedRow duration offeringType fixedPrice
            monthlyRecurring effectiveYearly sv.1 sv.2
    else AppendNotAvailableRow duration offeringType

/-- Embeds the table-building loop of `RDSCommand.Run` (rds.go lines
50–106): for each duration in `Durations` one row per offering type,
with a separator row after every duration except the last.  `Run` only
reaches this loop after its database-engine and on-demand-price
lookups succeed — see `rdsRun` below. -/
def rdsRunRows (query : ℤ → String → List ReservedDBInstancesOffering)
    (productDescription : String) (multiAz : Bool)
    (onDemandPrice : GoFloat) : List (List Cell) :=
  (Durations.map fun duration =>
    OfferingTypes.map
        (rdsRowFor query productDescription multiAz onDemandPrice duration) ++
      if duration ≠ Durations.getLastD 0 then [AppendSeparatorRow] else []).flatten

/-- Errors that abort `RDSCommand.Run` before its table loop. -/
inductive RDSRunError : Type
  | unsupportedDatabaseEngine (productDescription : String)
  | onDemandPriceLookupFailed
  deriving DecidableEq, Repr

/-- Embeds `RDSCommand.getDatabaseEngine` (rds.go lines 171–176): only
a product description containing "postgresql" is supported; everything
else — including "mysql" — is an "unsupported database engine" error. -/
def getDatabaseEngine (productDescription : String) :
    Except RDSRunError String :=
  if strContains productDescription "postgresql" then .ok "PostgreSQL"
  else .error (.unsupportedDatabaseEngine productDescription)

/-- Embeds `RDSCommand.Run` (rds.go lines 31–110) from the
database-engine guard down: the engine lookup (lines 41–44) and the
on-demand price lookup (lines 45–48, modelled by the `onDemandResult`
oracle since it is a network call) each abort the run with an error
before any row is appended; only then is the table of `rdsRunRows`
built. -/
def rdsRun (query : ℤ → String → List ReservedDBInstancesOffering)
    (onDemandResult : Except RDSRunError GoFloat)
    (productDescription : String) (multiAz : Bool) :
    Except RDSRunError (List (List Cell)) :=
  match getDatabaseEngine productDescription with
  | .error e => .error e
  | .ok _databaseEngine =>
      match onDemandResult with
      | .error e => .error e
      | .ok onDemandPrice =>
          .ok (rdsRunRows query productDescription multiAz onDemandPrice)

/-! ## total.go: aggregate price calculation (`TotalCommand.calculateTotalPrice`) -/

/-- Embeds `InstanceInfo` (total.go). -/
structure InstanceInfo where
  serviceType : String
  instanceType : String
  count : ℤ
  description : String
  multiAz : Bool
  deriving DecidableEq, Repr

/-- Embeds `InstancePriceResult` (total.go). -/
structure InstancePriceResult where
  serviceType : String
  instanceType : String
  count : ℤ
  upfront : GoFloat
  monthly : GoFloat
  yearly : GoFloat
  deriving DecidableEq, Repr

/-- Embeds `TotalPriceResult` (total.go). -/
structure TotalPriceResult where
  totalUpfront : GoFloat
  totalMonthly : GoFloat
  totalYearly : GoFloat
  instances : List InstancePriceResult
  deriving DecidableEq, Repr

/-- Errors of `calculateTotalPrice`: an unsupported service type, or a
failure of the per-instance pricing lookup. -/
inductive TotalPriceError : Type
  | unsupportedServiceType (serviceType : String)
  | priceLookupFailed (instanceType : String)
  deriving DecidableEq, Repr

open GoFloat in
/-- The loop body of `calculateTotalPrice` (total.go lines 156–192),
threading the accumulated result.  `perUnitPrice` models
`calculateRDSPrice` / `calculateElastiCachePrice`: the (upfront,
monthly, yearly) figures of one unit of the given instance, or an
error. -/
def calculateTotalPriceLoop
    (perUnitPrice : InstanceInfo → Except TotalPriceError (GoFloat × GoFloat × GoFloat)) :
    List InstanceInfo → TotalPriceResult →
      Except TotalPriceError TotalPriceResult
  | [], acc => .ok acc
  | instance_ :: rest, acc =>
      if instance_.serviceType = "rds" ∨ instance_.serviceType = "elasticache" then
        match perUnitPrice instance_ with
        | .error e => .error e
        | .ok (upfront, monthly, yearly) =>
            let upfront' := upfront * finite (instance_.count : ℚ)
            let monthly' := monthly * finite (instance_.count : ℚ)
            let yearly' := yearly * finite (instance_.count : ℚ)
            calculateTotalPriceLoop perUnitPrice rest
              { totalUpfront := acc.totalUpfront + upfront'
                totalMonthly := acc.totalMonthly + monthly'
                totalYearly := acc.totalYearly + yearly'
                instances := acc.instances ++
                  [{ serviceType := instance_.serviceType
                     instanceType := instance_.instanceType
                     count := instance_.count
                     upfront := upfront'
                     monthly := monthly'
                     yearly := yearly' }] }
      else .error (.unsupportedServiceType instance_.serviceType)

open GoFloat in
/-- Embeds `TotalCommand.calculateTotalPrice` (total.go lines 150–195):
start from the zero result and fold the instances through the loop. -/
def calculateTotalPrice
    (perUnitPrice : InstanceInfo → Except TotalPriceError (GoFloat × GoFloat × GoFloat))
    (instances : List InstanceInfo) :
    Except TotalPriceError TotalPriceResult :=
  calculateTotalPriceLoop perUnitPrice instances
    { totalUpfront := finite 0, totalMonthly := finite 0,
      totalYearly := finite 0, instances := [] }

/-! ## Supporting lemmas on GoFloat special values -/

namespace GoFloat

theorem div_finite_zero_of_neg (x : ℚ) (h : x < 0) :
    finite x / finite 0 = negInf := by
  simp [div_def, div, h, not_lt.mpr h.le]

theorem div_finite_zero_of_pos (x : ℚ) (h : 0 < x) :
    finite x / finite 0 = posInf := by
  simp [div_def, div, h]

theorem div_finite_zero_zero : finite 0 / finite 0 = nan := by
  simp [div_def, div]

theorem posInf_mul_finite_pos (b : ℚ) (hb : 0 < b) :
    posInf * finite b = posInf := by
  simp [mul_def, mul, hb]

theorem negInf_mul_finite_pos (b : ℚ) (hb : 0 < b) :
    negInf * finite b = negInf := by
  simp [mul_def, mul, hb]

theorem nan_mul (b : GoFloat) : nan * b = nan := by
  cases b <;> rfl

/-- Dividing any finite value by (finite) zero and scaling by 100 always
lands outside the finite numbers — and in particular is never the finite
value 0. -/
theorem divZeroTimes100_not_finite (x : ℚ) :
    ((finite x / finite 0) * finite 100).isFinite = false ∧
      (finite x / finite 0) * finite 100 ≠ finite 0 := by
  rcases lt_trichotomy x 0 with h | h | h
  · rw [div_finite_zero_of_neg x h,
      negInf_mul_finite_pos 100 (by norm_num)]
    exact ⟨rfl, by simp⟩
  · rw [h, div_finite_zero_zero, nan_mul]
    exact ⟨rfl, by simp⟩
  · rw [div_finite_zero_of_pos x h,
      posInf_mul_finite_pos 100 (by norm_num)]
    exact ⟨rfl, by simp⟩

end GoFloat

/-! ## Claims C1–C3 -/

/-- Claim C1. For a Fargate commitment-plan purchase with CPU quantity 2
(i.e. a vCPU input that the ÷1024 conversion turns into 2 vCPUs),
memory quantity 4 GB (likewise after ÷1024), unit count 10, commitment
CPU rate 0.03, commitment memory rate 0.007 and duration 1 year,
`FargateCommand.Run` computes hourly_commitment = 0.88 and
purchase_amount = 7603.2 — whatever the on-demand rates are. -/
theorem c1_fargate_purchase_figures (v m odVCPU odMem : GoFloat)
    (hv : v / GoFloat.finite 1024 = GoFloat.finite 2)
    (hm : m / GoFloat.finite 1024 = GoFloat.finite 4) :
    (fargateRunCalc 10 v m odVCPU odMem (GoFloat.finite (3/100))
        (GoFloat.finite (7/1000)) 1).hourlyCommitment =
      GoFloat.finite (22/25) ∧
    (fargateRunCalc 10 v m odVCPU odMem (GoFloat.finite (3/100))
        (GoFloat.finite (7/1000)) 1).spPurchaseAmount =
      GoFloat.finite (38016/5) := by
  simp only [fargateRunCalc]
  rw [hv, hm]
  constructor
  · simp only [GoFloat.finite_mul, GoFloat.finite_add]
    rw [GoFloat.finite_div_of_ne _ _ (by norm_num)]
    simp only [GoFloat.finite.injEq]
    norm_num
  · simp only [GoFloat.finite_mul, GoFloat.finite_add]
    rw [GoFloat.finite_div_of_ne _ _ (by norm_num)]
    simp only [GoFloat.finite_mul, GoFloat.finite.injEq]
    norm_num

/-- Witness for C1: the hypotheses hold at vCPU input 2048 (millicore
flag value), memory input 4096 (MB flag value), and the conclusion
yields 0.88 = 22/25 and 7603.2 = 38016/5. -/
theorem c1_fargate_purchase_figures_witness :
    (fargateRunCalc 10 (GoFloat.finite 2048) (GoFloat.finite 4096)
        (GoFloat.finite (1/20)) (GoFloat.finite (1/100))
        (GoFloat.finite (3/100)) (GoFloat.finite (7/1000)) 1).hourlyCommitment =
      GoFloat.finite (22/25) ∧
    (fargateRunCalc 10 (GoFloat.finite 2048) (GoFloat.finite 4096)
        (GoFloat.finite (1/20)) (GoFloat.finite (1/100))
        (GoFloat.finite (3/100)) (GoFloat.finite (7/1000)) 1).spPurchaseAmount =
      GoFloat.finite (38016/5) :=
  c1_fargate_purchase_figures (GoFloat.finite 2048) (GoFloat.finite 4096)
    (GoFloat.finite (1/20)) (GoFloat.finite (1/100))
    (by rw [GoFloat.finite_div_of_ne _ _ (by norm_num)]; norm_num)
    (by rw [GoFloat.finite_div_of_ne _ _ (by norm_num)]; norm_num)

/-- Claim C2, counterexample. `CalculateSavings 134 64` returns a savings
amount of 1544, not 70: the current revision treats the second argument
as an effective *yearly* cost and the result as *yearly* savings. -/
theorem c2_calculate_savings_counterexample :
    (CalculateSavings (GoFloat.finite 134) (GoFloat.finite 64)).1 =
        GoFloat.finite 1544 ∧
      (CalculateSavings (GoFloat.finite 134) (GoFloat.finite 64)).1 ≠
        GoFloat.finite 70 := by
  constructor
  · simp only [CalculateSavings, GoFloat.finite_mul, GoFloat.finite_sub,
      GoFloat.finite.injEq]
    norm_num
  · simp only [CalculateSavings, GoFloat.finite_mul, GoFloat.finite_sub, ne_eq,
      GoFloat.finite.injEq]
    norm_num

/-- Claim C2, amended. `CalculateSavings`, applied to a monthly on-demand
baseline of 134 and an effective yearly cost of 64, returns the yearly
savings amount 1544 = 134×12 − 64 and the savings percentage
19300/201 ≈ 96.0 (not 70 and ≈52.2 — those were the values of the old
monthly-based revision). -/
theorem c2_calculate_savings_amended :
    CalculateSavings (GoFloat.finite 134) (GoFloat.finite 64) =
        (GoFloat.finite 1544, GoFloat.finite (19300/201)) ∧
      |(19300 : ℚ)/201 - 96| < 1/10 := by
  constructor
  · simp only [CalculateSavings, GoFloat.finite_mul, GoFloat.finite_sub]
    rw [show (134 : ℚ) * 12 - 64 = 1544 by norm_num]
    rw [GoFloat.finite_div_of_ne _ _ (by norm_num : (134 * 12 : ℚ) ≠ 0)]
    simp only [GoFloat.finite_mul, Prod.mk.injEq, GoFloat.finite.injEq]
    norm_num
  · rw [abs_sub_lt_iff]
    norm_num

/-- Claim C3, counterexample. With a zero on-demand baseline
`CalculateSavings` does not signal an error: it performs the division
anyway and returns the numeric pair (−64, −∞) — the Go function's
signature has no error channel at all. -/
theorem c3_zero_baseline_counterexample :
    CalculateSavings (GoFloat.finite 0) (GoFloat.finite 64) =
      (GoFloat.finite (-64), GoFloat.negInf) := by
  simp only [CalculateSavings, GoFloat.finite_mul, GoFloat.finite_sub]
  rw [show (0 : ℚ) * 12 - 64 = -64 by norm_num, show (0 : ℚ) * 12 = 0 by norm_num]
  rw [GoFloat.div_finite_zero_of_neg (-64) (by norm_num),
    GoFloat.negInf_mul_finite_pos 100 (by norm_num)]

/-- Claim C3, amended. With a zero on-demand baseline the savings-percent
computations (`CalculateSavings` in table.go, the savings-rate lines of
`EC2Command.Run` and `FargateCommand.Run`) do not signal an error: the
division by the zero baseline is performed anyway and produces a
non-finite value (±∞ or NaN) — which in particular is never the finite
value 0. -/
theorem c3_zero_baseline_amended (q : ℚ) (c taskCount duration : ℤ)
    (s v m s1 s2 : ℚ) :
    ((CalculateSavings (GoFloat.finite 0) (GoFloat.finite q)).2.isFinite =
        false ∧
      (CalculateSavings (GoFloat.finite 0) (GoFloat.finite q)).2 ≠
        GoFloat.finite 0) ∧
    ((ec2RunCalc c (GoFloat.finite 0) (GoFloat.finite s)
          duration).savingsRate.isFinite = false ∧
      (ec2RunCalc c (GoFloat.finite 0) (GoFloat.finite s)
          duration).savingsRate ≠ GoFloat.finite 0) ∧
    ((fargateRunCalc taskCount (GoFloat.finite v) (GoFloat.finite m)
          (GoFloat.finite 0) (GoFloat.finite 0) (GoFloat.finite s1)
          (GoFloat.finite s2) duration).savingsRate.isFinite = false ∧
      (fargateRunCalc taskCount (GoFloat.finite v) (GoFloat.finite m)
          (GoFloat.finite 0) (GoFloat.finite 0) (GoFloat.finite s1)
          (GoFloat.finite s2) duration).savingsRate ≠ GoFloat.finite 0) := by
  refine ⟨?_, ?_, ?_⟩
  · simp only [CalculateSavings, GoFloat.finite_mul, GoFloat.finite_sub,
      zero_mul]
    exact GoFloat.divZeroTimes100_not_finite _
  · simp only [ec2RunCalc, GoFloat.finite_mul, GoFloat.finite_sub,
      mul_zero, zero_mul]
    exact GoFloat.divZeroTimes100_not_finite _
  · simp only [fargateRunCalc]
    rw [GoFloat.finite_div_of_ne _ _ (by norm_num : (1024:ℚ) ≠ 0),
      GoFloat.finite_div_of_ne _ _ (by norm_num : (1024:ℚ) ≠ 0)]
    simp only [GoFloat.finite_mul, GoFloat.finite_add, GoFloat.finite_sub,
      mul_zero, zero_mul, add_zero, zero_add]
    exact GoFloat.divZeroTimes100_not_finite _

/-- Witness for C3 (amended): concrete instantiation at baseline-0
inputs. -/
theorem c3_zero_baseline_amended_witness :
    ((CalculateSavings (GoFloat.finite 0) (GoFloat.finite 64)).2.isFinite =
        false ∧
      (CalculateSavings (GoFloat.finite 0) (GoFloat.finite 64)).2 ≠
        GoFloat.finite 0) ∧
    ((ec2RunCalc 3 (GoFloat.finite 0) (GoFloat.finite (1/2))
          1).savingsRate.isFinite = false ∧
      (ec2RunCalc 3 (GoFloat.finite 0) (GoFloat.finite (1/2))
          1).savingsRate ≠ GoFloat.finite 0) ∧
    ((fargateRunCalc 10 (GoFloat.finite 2048) (GoFloat.finite 4096)
          (GoFloat.finite 0) (GoFloat.finite 0) (GoFloat.finite (3/100))
          (GoFloat.finite (7/1000)) 1).savingsRate.isFinite = false ∧
      (fargateRunCalc 10 (GoFloat.finite 2048) (GoFloat.finite 4096)
          (GoFloat.finite 0) (GoFloat.finite 0) (GoFloat.finite (3/100))
          (GoFloat.finite (7/1000)) 1).savingsRate ≠ GoFloat.finite 0) :=
  c3_zero_baseline_amended 64 3 10 1 (1/2) 2048 4096 (3/100) (7/1000)

/-! ## Claim C4: per-second to hourly unit conversion -/

/-- Claim C4. Price extraction multiplies the parsed USD rate by 3600
exactly when the dimension's unit denotes seconds (its lower-casing
contains "second" or "sec", the code's test), and returns the rate
unchanged otherwise — in particular "hour"-style units pass through
unchanged and the ×3600 factor is applied exactly once. -/
theorem c4_second_to_hour_conversion (unit : String) (rate : ℚ) :
    extractOnDemandPriceFromResult (singleDimDoc unit rate) =
        .ok (if unitDenotesSeconds unit then rate * 3600 else rate) ∧
      unitDenotesSeconds "second" = true ∧
      unitDenotesSeconds "Seconds" = true ∧
      unitDenotesSeconds "vCPU-Seconds" = true ∧
      unitDenotesSeconds "hour" = false ∧
      unitDenotesSeconds "Hrs" = false ∧
      unitDenotesSeconds "GB-Hours" = false := by
  refine ⟨rfl, ?_, ?_, ?_, ?_, ?_, ?_⟩ <;> decide

/-! ## Claim C7: region/location round trip -/

/-- Claim C7. For every region code enumerated in the translation tables
(both the shared 29-entry pair and the 7-entry pair private to
`FargateCommand`), mapping the code to its location string and back
yields the original code; in particular "ap-northeast-1" ↔
"Asia Pacific (Tokyo)" in both directions. -/
theorem c7_region_location_roundtrip :
    ((regionToLocationTable.map Prod.fst).all fun code =>
        mapLocationToRegion (mapRegionToLocation code) == code) = true ∧
    ((FargateCommand.regionMapFargate.map Prod.fst).all fun code =>
        FargateCommand.mapLocationToRegion
            (FargateCommand.mapRegionToLocation code) == code) = true ∧
    mapRegionToLocation "ap-northeast-1" = "Asia Pacific (Tokyo)" ∧
    mapLocationToRegion "Asia Pacific (Tokyo)" = "ap-northeast-1" ∧
    FargateCommand.mapRegionToLocation "ap-northeast-1" =
      "Asia Pacific (Tokyo)" ∧
    FargateCommand.mapLocationToRegion "Asia Pacific (Tokyo)" =
      "ap-northeast-1" := by
  refine ⟨?_, ?_, ?_, ?_, ?_, ?_⟩ <;> decide

/-! ## Claim C8: unknown inputs to the translators -/

theorem lookup_eq_none_of_forall_ne (l : List (String × String)) (x : String)
    (h : ∀ p ∈ l, p.1 ≠ x) : l.lookup x = none := by
  induction l with
  | nil => rfl
  | cons p t ih =>
      have hne : (x == p.1) = false :=
        beq_eq_false_iff_ne.mpr fun hx => h p (by simp) hx.symm
      simp only [List.lookup, hne]
      exact ih fun q hq => h q (by simp [hq])

/-- Claim C8, counterexample. The claim has the two directions swapped:
on unknown input the location→code direction returns the *empty
string* (not the input unchanged), and the code→location direction
returns the *input unchanged* (not an empty result). -/
theorem c8_unknown_translation_counterexample :
    mapLocationToRegion "Atlantis (Lost City)" ≠ "Atlantis (Lost City)" ∧
    mapLocationToRegion "Atlantis (Lost City)" = "" ∧
    mapRegionToLocation "xx-nowhere-1" ≠ "" ∧
    mapRegionToLocation "xx-nowhere-1" = "xx-nowhere-1" ∧
    FargateCommand.mapLocationToRegion "Atlantis (Lost City)" = "" ∧
    FargateCommand.mapRegionToLocation "xx-nowhere-1" = "xx-nowhere-1" := by
  refine ⟨?_, ?_, ?_, ?_, ?_, ?_⟩ <;> decide

/-- Claim C8, amended. For every input not present in the enumerated
region tables: the location→code direction returns the empty string
(surfacing the unmapped location), and the code→location direction
returns the input unchanged — for the shared translators and the
`FargateCommand` copies alike. -/
theorem c8_unknown_translation_amended (loc reg : String)
    (hloc : ∀ p ∈ locationToRegionTable, p.1 ≠ loc)
    (hreg : ∀ p ∈ regionToLocationTable, p.1 ≠ reg)
    (hlocF : ∀ p ∈ FargateCommand.locationMapFargate, p.1 ≠ loc)
    (hregF : ∀ p ∈ FargateCommand.regionMapFargate, p.1 ≠ reg) :
    mapLocationToRegion loc = "" ∧
    mapRegionToLocation reg = reg ∧
    FargateCommand.mapLocationToRegion loc = "" ∧
    FargateCommand.mapRegionToLocation reg = reg := by
  refine ⟨?_, ?_, ?_, ?_⟩
  · rw [mapLocationToRegion, lookup_eq_none_of_forall_ne _ _ hloc]
  · rw [mapRegionToLocation, lookup_eq_none_of_forall_ne _ _ hreg]
  · rw [FargateCommand.mapLocationToRegion,
      lookup_eq_none_of_forall_ne _ _ hlocF]
  · rw [FargateCommand.mapRegionToLocation,
      lookup_eq_none_of_forall_ne _ _ hregF]

/-- Witness for C8 (amended) at concrete unknown inputs. -/
theorem c8_unknown_translation_amended_witness :
    mapLocationToRegion "Mars (Olympus Mons)" = "" ∧
    mapRegionToLocation "zz-void-9" = "zz-void-9" ∧
    FargateCommand.mapLocationToRegion "Mars (Olympus Mons)" = "" ∧
    FargateCommand.mapRegionToLocation "zz-void-9" = "zz-void-9" :=
  c8_unknown_translation_amended "Mars (Olympus Mons)" "zz-void-9"
    (by decide) (by decide) (by decide) (by decide)

/-! ## Claim C5: reservation offer selection -/

/-- Claim C5, counterexample. When no candidate matches the requested
attributes, `RDSCommand.getOffering` does *not* fall back to the first
candidate: it returns nil, and `RDSCommand.Run` renders the N/A row.
Here the sole candidate is a Single-AZ postgresql offering while the
target is Multi-AZ mysql. -/
theorem c5_no_first_candidate_fallback_counterexample :
    getOffering
        [⟨"postgresql", false, 1, GoFloat.finite 100, GoFloat.finite (1/10)⟩]
        "mysql" true = none ∧
    getOffering
        [⟨"postgresql", false, 1, GoFloat.finite 100, GoFloat.finite (1/10)⟩]
        "mysql" true ≠
      some ⟨"postgresql", false, 1, GoFloat.finite 100, GoFloat.finite (1/10)⟩ ∧
    rdsRowFor
        (fun _ _ =>
          [⟨"postgresql", false, 1, GoFloat.finite 100, GoFloat.finite (1/10)⟩])
        "mysql" true (GoFloat.finite 134) 1 "No Upfront" =
      AppendNotAvailableRow 1 "No Upfront" := by
  refine ⟨rfl, ?_, rfl⟩
  intro h
  simp [getOffering, List.find?] at h

/-- Claim C5, amended. `RDSCommand.getOffering` selects the first
candidate whose product description and Multi-AZ flag both match
exactly, and reports "no offer" (`none`, rendered N/A) when no
candidate matches — there is no first-candidate fallback; duration
matching is delegated to the query parameters, not re-checked during
selection.  The ElastiCache path, by contrast, unconditionally selects
the first candidate (without attribute checks). -/
theorem c5_offer_selection_amended
    (offerings : List ReservedDBInstancesOffering)
    (productDescription : String) (multiAz : Bool) :
    (∀ o, getOffering offerings productDescription multiAz = some o →
        o.productDescription = productDescription ∧ o.multiAZ = multiAz) ∧
    ((∀ o ∈ offerings,
        ¬(o.productDescription = productDescription ∧ o.multiAZ = multiAz)) →
      getOffering offerings productDescription multiAz = none) ∧
    (∀ (c : ReservedCacheNodesOffering) (rest : List ReservedCacheNodesOffering),
      elasticacheSelectOffering (c :: rest) = some c) := by
  refine ⟨?_, ?_, ?_⟩
  · intro o h
    have hp := List.find?_some h
    simpa [Bool.and_eq_true, beq_iff_eq] using hp
  · intro h
    apply List.find?_eq_none.mpr
    intro o ho
    have := h o ho
    simp only [Bool.and_eq_true, beq_iff_eq]
    tauto
  · intro c rest
    simp [elasticacheSelectOffering]

/-- Witness for C5 (amended): applying the amended selection facts at a
concrete candidate list. -/
theorem c5_offer_selection_amended_witness :
    getOffering
        [⟨"postgresql", false, 3, GoFloat.finite 200, GoFloat.finite (3/10)⟩]
        "mysql" false = none ∧
    elasticacheSelectOffering
        [⟨GoFloat.finite 50, GoFloat.finite (2/10)⟩] =
      some ⟨GoFloat.finite 50, GoFloat.finite (2/10)⟩ :=
  ⟨(c5_offer_selection_amended
      [⟨"postgresql", false, 3, GoFloat.finite 200, GoFloat.finite (3/10)⟩]
      "mysql" false).2.1 (by decide),
   (c5_offer_selection_amended [] "mysql" false).2.2
      ⟨GoFloat.finite 50, GoFloat.finite (2/10)⟩ []⟩

/-! ## Claim C6: payment-option fallback -/

/-- Claim C6, counterexample. For the requested payment structure
"partial-upfront", a query returning zero candidate offers makes the
operation give up immediately: *no* alternate payment structure is
queried (only "Partial Upfront" itself is ever attempted), refuting
"exactly one alternate ... for every requested payment structure". -/
theorem c6_single_fallback_counterexample :
    (describeOfferingRatesWithFallback (fun _ => ([] : List ℕ))
        "partial-upfront").2 = ["Partial Upfront"] ∧
    (describeOfferingRatesWithFallback (fun _ => ([] : List ℕ))
        "partial-upfront").2.length = 1 ∧
    (describeOfferingRatesWithFallback (fun _ => ([] : List ℕ))
        "partial-upfront").1 =
      .error (.noOfferingRatesFound "partial-upfront") := by
  refine ⟨rfl, rfl, rfl⟩

/-- Claim C6, amended. At most one alternate payment structure is ever
attempted, and the single-alternate fallback happens only for the
"no-upfront" request (retried as "All Upfront"); for "partial-upfront"
and "all-upfront" a zero-offer result gives up immediately with no
alternate attempted. -/
theorem c6_single_fallback_amended {α : Type} (query : String → List α)
    (opt : String) :
    (describeOfferingRatesWithFallback query opt).2.length ≤ 2 ∧
    (opt = "no-upfront" → query "No Upfront" = [] →
      (describeOfferingRatesWithFallback query opt).2 =
        ["No Upfront", "All Upfront"]) ∧
    (opt = "partial-upfront" → query "Partial Upfront" = [] →
      (describeOfferingRatesWithFallback query opt).2 = ["Partial Upfront"] ∧
      (describeOfferingRatesWithFallback query opt).1 =
        .error (.noOfferingRatesFound "partial-upfront")) ∧
    (opt = "all-upfront" → query "All Upfront" = [] →
      (describeOfferingRatesWithFallback query opt).2 = ["All Upfront"] ∧
      (describeOfferingRatesWithFallback query opt).1 =
        .error (.noOfferingRatesFound "all-upfront")) := by
  refine ⟨?_, ?_, ?_, ?_⟩
  · rw [describeOfferingRatesWithFallback]
    rcases hc : convertPaymentOptionToAWSFormat
        (if opt = "" then "no-upfront" else opt) with e | aws
    · simp
    · simp only []
      split_ifs <;> simp
  · intro h1 h2
    subst h1
    rw [describeOfferingRatesWithFallback]
    simp [convertPaymentOptionToAWSFormat, paymentOptionMap, List.lookup, h2]
    split <;> rfl
  · intro h1 h2
    subst h1
    rw [describeOfferingRatesWithFallback]
    simp [convertPaymentOptionToAWSFormat, paymentOptionMap, List.lookup, h2]
  · intro h1 h2
    subst h1
    rw [describeOfferingRatesWithFallback]
    simp [convertPaymentOptionToAWSFormat, paymentOptionMap, List.lookup, h2]

/-- Witness for C6 (amended): with an always-empty query, "no-upfront"
attempts exactly the one alternate, and "all-upfront" attempts none. -/
theorem c6_single_fallback_amended_witness :
    (describeOfferingRatesWithFallback (fun _ => ([] : List ℕ))
        "no-upfront").2 = ["No Upfront", "All Upfront"] ∧
    (describeOfferingRatesWithFallback (fun _ => ([] : List ℕ))
        "all-upfront").2 = ["All Upfront"] :=
  ⟨(c6_single_fallback_amended (fun _ => ([] : List ℕ)) "no-upfront").2.1
      rfl rfl,
   ((c6_single_fallback_amended (fun _ => ([] : List ℕ)) "all-upfront").2.2.2
      rfl rfl).1⟩

/-! ## Claim C9: RDS comparison table shape -/

/-- Claim C9, counterexample. Running the comparison for scenario A's
product "mysql" does not produce a 6-row (or any) table:
`RDSCommand.Run`'s database-engine guard only supports products
containing "postgresql", so a "mysql" run aborts with an
"unsupported database engine" error before any row is appended.
Independently, the table the loop builds for a supported product has
9 appended rows (8 data rows + 1 separator), not 6 + 1 = 7. -/
theorem c9_table_shape_counterexample :
    rdsRun (fun _ _ => []) (.ok (GoFloat.finite 134)) "mysql" true =
        .error (.unsupportedDatabaseEngine "mysql") ∧
      (rdsRunRows (fun _ _ => []) "postgresql" true
          (GoFloat.finite 134)).length ≠ 7 := by
  exact ⟨rfl, by decide⟩

/-- Claim C9, amended. Running the comparison for a product whose
description does not contain "postgresql" (such as scenario A's
"mysql") aborts with an "unsupported database engine" error before any
row is appended.  For a supported product the run builds a table of
8 data rows (2 durations × (1 On-Demand + 3 payment structures)) plus
one separator row after the 1-year block — 9 appended rows in all;
when the catalog returns zero candidate offers for the
3-year/no-upfront combination, that row (index 6) renders "N/A" in the
upfront, monthly, effective and savings columns, while all the other
rows are still produced. -/
theorem c9_table_shape_amended
    (query : ℤ → String → List ReservedDBInstancesOffering)
    (productDescription : String) (multiAz : Bool) (onDemandPrice : GoFloat)
    (h : query 3 "No Upfront" = []) :
    (strContains productDescription "postgresql" = false →
      rdsRun query (.ok onDemandPrice) productDescription multiAz =
        .error (.unsupportedDatabaseEngine productDescription)) ∧
    (strContains productDescription "postgresql" = true →
      rdsRun query (.ok onDemandPrice) productDescription multiAz =
        .ok (rdsRunRows query productDescription multiAz onDemandPrice)) ∧
    (rdsRunRows query productDescription multiAz onDemandPrice).length = 9 ∧
    (rdsRunRows query productDescription multiAz onDemandPrice)[4]? =
      some AppendSeparatorRow ∧
    (rdsRunRows query productDescription multiAz onDemandPrice)[6]? =
      some (AppendNotAvailableRow 3 "No Upfront") ∧
    AppendNotAvailableRow 3 "No Upfront" =
      [Cell.dur 3, Cell.str "No Upfront", Cell.str "N/A", Cell.str "N/A",
       Cell.str "N/A", Cell.str "N/A"] := by
  refine ⟨?_, ?_, rfl, rfl, ?_, rfl⟩
  · intro hf
    simp [rdsRun, getDatabaseEngine, hf]
  · intro ht
    simp [rdsRun, getDatabaseEngine, ht]
  · show some (rdsRowFor query productDescription multiAz onDemandPrice
        3 "No Upfront") = _
    rw [rdsRowFor, if_neg (by decide : ¬("No Upfront" = "On-Demand")), h]
    simp

/-- Witness for C9 (amended): a supported product ("postgresql") with a
catalog returning no offers at all — the run reaches the loop, the
table has its 9 rows, and the 3-year/no-upfront row is the N/A row;
the unsupported product "mysql" aborts instead. -/
theorem c9_table_shape_amended_witness :
    rdsRun (fun _ _ => []) (.ok (GoFloat.finite 134)) "postgresql" true =
        .ok (rdsRunRows (fun _ _ => []) "postgresql" true
          (GoFloat.finite 134)) ∧
      rdsRun (fun _ _ => []) (.ok (GoFloat.finite 134)) "mysql" true =
        .error (.unsupportedDatabaseEngine "mysql") ∧
      (rdsRunRows (fun _ _ => []) "postgresql" true
          (GoFloat.finite 134)).length = 9 ∧
      (rdsRunRows (fun _ _ => []) "postgresql" true (GoFloat.finite 134))[4]? =
        some AppendSeparatorRow ∧
      (rdsRunRows (fun _ _ => []) "postgresql" true (GoFloat.finite 134))[6]? =
        some (AppendNotAvailableRow 3 "No Upfront") :=
  ⟨(c9_table_shape_amended (fun _ _ => []) "postgresql" true
      (GoFloat.finite 134) rfl).2.1 (by decide),
   (c9_table_shape_amended (fun _ _ => []) "mysql" true
      (GoFloat.finite 134) rfl).1 (by decide),
   (c9_table_shape_amended (fun _ _ => []) "postgresql" true
      (GoFloat.finite 134) rfl).2.2.1,
   (c9_table_shape_amended (fun _ _ => []) "postgresql" true
      (GoFloat.finite 134) rfl).2.2.2.1,
   (c9_table_shape_amended (fun _ _ => []) "postgresql" true
      (GoFloat.finite 134) rfl).2.2.2.2.1⟩

/-! ## Claim C10: total price aggregation invariants -/

/-- The per-instance relation of C10: a result entry carries the
instance's identity and the per-unit figures scaled by its count. -/
def PerInstancePriced
    (perUnitPrice :
      InstanceInfo → Except TotalPriceError (GoFloat × GoFloat × GoFloat))
    (i : InstanceInfo) (r : InstancePriceResult) : Prop :=
  r.serviceType = i.serviceType ∧ r.instanceType = i.instanceType ∧
    r.count = i.count ∧
    ∃ upfront monthly yearly,
      perUnitPrice i = .ok (upfront, monthly, yearly) ∧
        r.upfront = upfront * GoFloat.finite (i.count : ℚ) ∧
        r.monthly = monthly * GoFloat.finite (i.count : ℚ) ∧
        r.yearly = yearly * GoFloat.finite (i.count : ℚ)

theorem calculateTotalPriceLoop_spec
    (perUnitPrice :
      InstanceInfo → Except TotalPriceError (GoFloat × GoFloat × GoFloat))
    (l : List InstanceInfo) (acc res : TotalPriceResult)
    (h : calculateTotalPriceLoop perUnitPrice l acc = .ok res) :
    ∃ produced : List InstancePriceResult,
      res.instances = acc.instances ++ produced ∧
      List.Forall₂ (PerInstancePriced perUnitPrice) l produced ∧
      res.totalUpfront =
        (produced.map (·.upfront)).foldl (fun a b => a + b) acc.totalUpfront ∧
      res.totalMonthly =
        (produced.map (·.monthly)).foldl (fun a b => a + b) acc.totalMonthly ∧
      res.totalYearly =
        (produced.map (·.yearly)).foldl (fun a b => a + b) acc.totalYearly := by
  induction l generalizing acc with
  | nil =>
      have hres : acc = res := by simpa [calculateTotalPriceLoop] using h
      subst hres
      exact ⟨[], by simp, List.Forall₂.nil, rfl, rfl, rfl⟩
  | cons i t ih =>
      rw [calculateTotalPriceLoop] at h
      split_ifs at h with hs
      · rcases hp : perUnitPrice i with e | ⟨upfront, monthly, yearly⟩
        · rw [hp] at h
          exact absurd h (by simp)
        · rw [hp] at h
          obtain ⟨produced, hinst, hrel, hu, hm, hy⟩ := ih _ h
          refine ⟨InstancePriceResult.mk i.serviceType i.instanceType i.count
              (upfront * GoFloat.finite (i.count : ℚ))
              (monthly * GoFloat.finite (i.count : ℚ))
              (yearly * GoFloat.finite (i.count : ℚ)) :: produced,
            ?_, ?_, ?_, ?_, ?_⟩
          · simpa using hinst
          · refine List.Forall₂.cons ?_ hrel
            exact ⟨rfl, rfl, rfl, upfront, monthly, yearly, hp, rfl, rfl, rfl⟩
          · simpa using hu
          · simpa using hm
          · simpa using hy

/-- Claim C10. In every `TotalPriceResult` a successful
`calculateTotalPrice` run returns, `TotalUpfront`, `TotalMonthly` and
`TotalYearly` are exactly the (left-to-right) sums of the `Upfront`,
`Monthly` and `Yearly` fields over the per-instance results, and each
per-instance figure is the selected offering's single-unit figure
multiplied by that instance's `Count`. -/
theorem c10_total_price_invariants
    (perUnitPrice :
      InstanceInfo → Except TotalPriceError (GoFloat × GoFloat × GoFloat))
    (instances : List InstanceInfo) (res : TotalPriceResult)
    (h : calculateTotalPrice perUnitPrice instances = .ok res) :
    List.Forall₂ (PerInstancePriced perUnitPrice) instances res.instances ∧
    res.totalUpfront =
      (res.instances.map (·.upfront)).foldl (fun a b => a + b)
        (GoFloat.finite 0) ∧
    res.totalMonthly =
      (res.instances.map (·.monthly)).foldl (fun a b => a + b)
        (GoFloat.finite 0) ∧
    res.totalYearly =
      (res.instances.map (·.yearly)).foldl (fun a b => a + b)
        (GoFloat.finite 0) := by
  obtain ⟨produced, hinst, hrel, hu, hm, hy⟩ :=
    calculateTotalPriceLoop_spec perUnitPrice instances _ res h
  have hpi : res.instances = produced := by simpa using hinst
  subst hpi
  exact ⟨hrel, hu, hm, hy⟩

/-- A concrete pricing oracle for exercising `calculateTotalPrice`. -/
def c10Oracle (i : InstanceInfo) :
    Except TotalPriceError (GoFloat × GoFloat × GoFloat) :=
  if i.serviceType = "rds" then
    .ok (GoFloat.finite 10, GoFloat.finite 5, GoFloat.finite 70)
  else .ok (GoFloat.finite 4, GoFloat.finite 2, GoFloat.finite 30)

/-- A concrete instance list for exercising `calculateTotalPrice`. -/
def c10Instances : List InstanceInfo :=
  [InstanceInfo.mk "rds" "db.t4g.large" 2 "mysql" true,
   InstanceInfo.mk "elasticache" "cache.m5.large" 3 "redis" false]

/-- The result `calculateTotalPrice c10Oracle c10Instances` produces. -/
def c10Res : TotalPriceResult :=
  { totalUpfront := GoFloat.finite 0 +
      GoFloat.finite 10 * GoFloat.finite ((2 : ℤ) : ℚ) +
      GoFloat.finite 4 * GoFloat.finite ((3 : ℤ) : ℚ)
    totalMonthly := GoFloat.finite 0 +
      GoFloat.finite 5 * GoFloat.finite ((2 : ℤ) : ℚ) +
      GoFloat.finite 2 * GoFloat.finite ((3 : ℤ) : ℚ)
    totalYearly := GoFloat.finite 0 +
      GoFloat.finite 70 * GoFloat.finite ((2 : ℤ) : ℚ) +
      GoFloat.finite 30 * GoFloat.finite ((3 : ℤ) : ℚ)
    instances :=
      [InstancePriceResult.mk "rds" "db.t4g.large" 2
          (GoFloat.finite 10 * GoFloat.finite ((2 : ℤ) : ℚ))
          (GoFloat.finite 5 * GoFloat.finite ((2 : ℤ) : ℚ))
          (GoFloat.finite 70 * GoFloat.finite ((2 : ℤ) : ℚ)),
       InstancePriceResult.mk "elasticache" "cache.m5.large" 3
          (GoFloat.finite 4 * GoFloat.finite ((3 : ℤ) : ℚ))
          (GoFloat.finite 2 * GoFloat.finite ((3 : ℤ) : ℚ))
          (GoFloat.finite 30 * GoFloat.finite ((3 : ℤ) : ℚ))] }

/-- Witness for C10: the invariants hold on a concrete successful run
over one RDS and one ElastiCache instance. -/
theorem c10_total_price_invariants_witness :
    calculateTotalPrice c10Oracle c10Instances = .ok c10Res ∧
    (List.Forall₂ (PerInstancePriced c10Oracle) c10Instances
        c10Res.instances ∧
      c10Res.totalUpfront =
        (c10Res.instances.map (·.upfront)).foldl (fun a b => a + b)
          (GoFloat.finite 0) ∧
      c10Res.totalMonthly =
        (c10Res.instances.map (·.monthly)).foldl (fun a b => a + b)
          (GoFloat.finite 0) ∧
      c10Res.totalYearly =
        (c10Res.instances.map (·.yearly)).foldl (fun a b => a + b)
          (GoFloat.finite 0)) :=
  ⟨rfl, c10_total_price_invariants c10Oracle c10Instances c10Res rfl⟩
